import Mathlib

/-!
Shallow embedding of the forex-order core of the nestjs-microservice-finance
repository: the Wallet Transfer Engine (apps/wallet wallet.service.ts), the
Forex Order State Machine (TransactionsService) and the Retry Subsystem
(RetryOrderProducer / RetryOrderConsumer).

Monetary values (decimal.js Decimal in the source) are modelled as exact
rationals (Rat).  Databases are modelled as in-memory lists; TypeORM
findOneOrFail with a where-clause is modelled as List.find? over that list;
dataSource.transaction is modelled by an explicit commit flag: when the flag
is false all effects of the callback are dropped and the caller receives the
ABORTED error that the source raises, mirroring a rollback.
-/

namespace Finance

/-- gRPC status codes from grpc-js, as used by the services. -/
inductive GrpcStatus where
  | ok
  | cancelled
  | unknown
  | invalidArgument
  | deadlineExceeded
  | notFound
  | alreadyExists
  | permissionDenied
  | resourceExhausted
  | failedPrecondition
  | aborted
  | outOfRange
  | unimplemented
  | internalErr
  | unavailable
  | dataLoss
  | unauthenticated
deriving Repr, DecidableEq

/-- Payload of an RpcException: a status code and a message. -/
structure RpcError where
  code : GrpcStatus
  message : String
deriving Repr, DecidableEq

/-! ### Wallet service data model (apps/wallet/src/typeorm/models) -/

/-- wallet_transaction.type enum of wallet-transactions.model.ts. -/
inductive TransactionType where
  | credit
  | debit
  | withdraw
  | fund
deriving Repr, DecidableEq

/-- Wallet row (wallets.model.ts): one row per (userId, currency) by the
UNIQUE(userId, currency) constraint of the initial migration. -/
structure Wallet where
  id : Nat
  userId : Nat
  currency : String
  balance : Rat
deriving Repr, DecidableEq

/-- WalletTransaction row (wallet-transactions.model.ts). -/
structure WalletTransaction where
  walletId : Nat
  ttype : TransactionType
  amount : Rat
  currency : String
  descr : String
deriving Repr, DecidableEq

/-- The wallet database: wallet rows plus the append-only ledger rows.
nextWalletId models uuid generation for newly created wallets. -/
structure WalletStore where
  wallets : List Wallet
  walletTxns : List WalletTransaction
  nextWalletId : Nat
deriving Repr, DecidableEq

/-- The WalletEntity shape returned by the wallet service
(createWalletEntity in wallet.service.ts). -/
structure WalletEntity where
  walletId : Nat
  userId : Nat
  balance : Rat
  currency : String
deriving Repr, DecidableEq

/-! ### Wallet service operations (wallet.service.ts) -/

/-- findOneOrFail where id and userId match (handleWalletTransaction). -/
def findWalletByIdUser (s : WalletStore) (wid uid : Nat) : Option Wallet :=
  s.wallets.find? (fun w => w.id == wid && w.userId == uid)

/-- findOneOrFail / findOneBy where userId and currency match
(createWallet, getWalletBalance). -/
def findWalletByUserCurrency (s : WalletStore) (uid : Nat) (c : String) :
    Option Wallet :=
  s.wallets.find? (fun w => w.userId == uid && w.currency == c)

/-- findOneOrFail where only the currency matches: this is the lookup used
by findBaseWalletOrFail and getOrCreateTargetWalletInTxn in the source,
which filter by currency alone, without a userId condition. -/
def findWalletByCurrency (s : WalletStore) (c : String) : Option Wallet :=
  s.wallets.find? (fun w => w.currency == c)

/-- Overwrite the balance of every wallet row whose id matches (the effect of
manager.save of an entity loaded for that id). -/
def setWalletBalance (s : WalletStore) (wid : Nat) (b : Rat) : WalletStore :=
  { s with wallets :=
      s.wallets.map (fun w => if w.id == wid then { w with balance := b } else w) }

/-- validateSufficientFund: throws INVALID_ARGUMENT when balance < amount. -/
def validateSufficientFund (w : Wallet) (amount : Rat) : Except RpcError Unit :=
  if w.balance < amount then
    .error ⟨.invalidArgument, "Insufficient balance"⟩
  else
    .ok ()

/-- handleWalletTransaction: find the wallet by (id, userId), run the
per-operation validate, then inside one database transaction update the
balance and insert one WalletTransaction row.  txnOk models whether the
database transaction commits; when it does not, no write survives and the
caller receives ABORTED. -/
def handleWalletTransaction (s : WalletStore) (walletId userId : Nat)
    (amount : Rat) (ttype : TransactionType) (descr : String)
    (updateBalance : Rat → Rat → Rat)
    (validate : Wallet → Rat → Except RpcError Unit)
    (txnOk : Bool) : Except RpcError WalletEntity × WalletStore :=
  match findWalletByIdUser s walletId userId with
  | none => (.error ⟨.notFound, "Could not find wallet for user"⟩, s)
  | some w =>
    match validate w amount with
    | .error e => (.error e, s)
    | .ok _ =>
      if txnOk then
        let newBalance := updateBalance w.balance amount
        let txn : WalletTransaction :=
          ⟨w.id, ttype, amount, w.currency, descr⟩
        (.ok ⟨w.id, w.userId, newBalance, w.currency⟩,
          { setWalletBalance s w.id newBalance with
              walletTxns := s.walletTxns ++ [txn] })
      else
        (.error ⟨.aborted, "Could not process wallet transaction"⟩, s)

/-- fundWallet: credit, no validation, FUND ledger row. -/
def fundWallet (s : WalletStore) (walletId userId : Nat) (amount : Rat)
    (txnOk : Bool) : Except RpcError WalletEntity × WalletStore :=
  handleWalletTransaction s walletId userId amount .fund "Fund wallet"
    (fun b a => b + a) (fun _ _ => .ok ()) txnOk

/-- withdrawWallet: debit guarded by validateSufficientFund, WITHDRAW row. -/
def withdrawWallet (s : WalletStore) (walletId userId : Nat) (amount : Rat)
    (txnOk : Bool) : Except RpcError WalletEntity × WalletStore :=
  handleWalletTransaction s walletId userId amount .withdraw
    "Withdrawal from wallet" (fun b a => b - a) validateSufficientFund txnOk

/-- createWallet: return the existing (userId, currency) wallet if there is
one, otherwise insert a fresh wallet with balance 0. -/
def createWallet (s : WalletStore) (uid : Nat) (c : String) :
    WalletEntity × WalletStore :=
  match findWalletByUserCurrency s uid c with
  | some w => (⟨w.id, w.userId, w.balance, w.currency⟩, s)
  | none =>
    let w : Wallet := ⟨s.nextWalletId, uid, c, 0⟩
    (⟨w.id, uid, 0, c⟩,
      { s with wallets := s.wallets ++ [w],
               nextWalletId := s.nextWalletId + 1 })

/-- getWalletBalance: look up the (userId, currency) wallet; when the lookup
fails, fall back to createWallet instead of raising NOT_FOUND. -/
def getWalletBalance (s : WalletStore) (uid : Nat) (c : String) :
    Except RpcError WalletEntity × WalletStore :=
  match findWalletByUserCurrency s uid c with
  | some w => (.ok ⟨w.id, w.userId, w.balance, w.currency⟩, s)
  | none =>
    let r := createWallet s uid c
    (.ok r.1, r.2)

/-- getOrCreateTargetWalletInTxn: find a wallet for the target currency
(matching the source, the where-clause has only the currency), else create
one for the requesting user with balance 0 inside the open transaction. -/
def getOrCreateTargetWalletInTxn (s : WalletStore) (uid : Nat)
    (targetCurrency : String) : Wallet × WalletStore :=
  match findWalletByCurrency s targetCurrency with
  | some w => (w, s)
  | none =>
    let w : Wallet := ⟨s.nextWalletId, uid, targetCurrency, 0⟩
    (w, { s with wallets := s.wallets ++ [w],
                 nextWalletId := s.nextWalletId + 1 })

/-- findBaseWalletOrFail: find a wallet by currency alone, NOT_FOUND if
there is none. -/
def findBaseWalletOrFail (s : WalletStore) (c : String) :
    Except RpcError Wallet :=
  match findWalletByCurrency s c with
  | some w => .ok w
  | none => .error ⟨.notFound, "Could not find base wallet"⟩

/-- Response of buyForex on the wallet service. -/
structure BuyForexRes where
  exchangeRate : Rat
  targetAmount : Rat
deriving Repr, DecidableEq

/-- buyForex (wallet.service.ts): find the base wallet by currency, check
sufficient funds, fetch the exchange rate (rate = none models the
fetchExchangeRate failure, which surfaces as ABORTED), then inside one
database transaction load-or-create the target wallet, move the balances
and insert the DEBIT and CREDIT ledger rows.  txnOk = false models a
failure inside that transaction: everything rolls back and the caller
receives ABORTED. -/
def buyForex (s : WalletStore) (uid : Nat) (baseCurrency targetCurrency : String)
    (amount : Rat) (rate : Option Rat) (txnOk : Bool) :
    Except RpcError BuyForexRes × WalletStore :=
  match findBaseWalletOrFail s baseCurrency with
  | .error e => (.error e, s)
  | .ok baseWallet =>
    match validateSufficientFund baseWallet amount with
    | .error e => (.error e, s)
    | .ok _ =>
      match rate with
      | none => (.error ⟨.aborted, "exchange rate lookup failed"⟩, s)
      | some r =>
        let targetWalletAmount := amount * r
        if txnOk then
          let tw := getOrCreateTargetWalletInTxn s uid targetCurrency
          let targetWallet := tw.1
          let s1 := tw.2
          let s2 := setWalletBalance s1 baseWallet.id (baseWallet.balance - amount)
          let s3 := setWalletBalance s2 targetWallet.id
            (targetWallet.balance + targetWalletAmount)
          let baseTxn : WalletTransaction :=
            ⟨baseWallet.id, .debit, amount, baseWallet.currency,
              "Debit for forex purchase"⟩
          let targetTxn : WalletTransaction :=
            ⟨targetWallet.id, .credit, targetWalletAmount, targetWallet.currency,
              "Credit for forex purchase"⟩
          (.ok ⟨r, targetWalletAmount⟩,
            { s3 with walletTxns := s3.walletTxns ++ [baseTxn, targetTxn] })
        else
          (.error ⟨.aborted, "Could not complete forex purchase try again later"⟩, s)

/-! ### Transaction service data model (apps/transaction/src/typeorm/models) -/

/-- ForexOrder.status enum. -/
inductive OrderStatus where
  | pending
  | completed
  | failed
deriving Repr, DecidableEq

/-- ForexTransaction.status enum. -/
inductive TransactionStatus where
  | initiated
  | completed
  | failed
deriving Repr, DecidableEq

/-- ForexOrder row (forex-order.model.ts). -/
structure ForexOrder where
  id : Nat
  userId : Nat
  userEmail : String
  baseCurrency : String
  targetCurrency : String
  amount : Rat
  status : OrderStatus
  retryAttempts : Nat
  errorStatus : Option GrpcStatus
  errorMessage : Option String
deriving Repr, DecidableEq

/-- ForexTransaction row (forex-transaction.model.ts); the order side of the
OneToMany relation is the orderId back-reference. -/
structure ForexTransaction where
  id : Nat
  orderId : Nat
  userId : Nat
  baseCurrency : String
  targetCurrency : String
  amount : Rat
  exchangeRate : Option Rat
  targetAmount : Option Rat
  status : TransactionStatus
  errorStatus : Option GrpcStatus
  errorMessage : Option String
deriving Repr, DecidableEq

/-- Payload placed on the forex_retry_queue (retry-order.producer.ts). -/
structure RetryOrderEvent where
  orderId : Nat
  transactionId : Nat
  errCode : GrpcStatus
  errMessage : String
deriving Repr, DecidableEq

/-- Kind of a transaction email (createTransactionEmail). -/
inductive EmailKind where
  | success
  | failure
deriving Repr, DecidableEq

/-- A notification handed to notificationService.notifyUser. -/
structure Email where
  kind : EmailKind
  toAddr : String
  orderId : Nat
deriving Repr, DecidableEq

/-- Combined state visible to the transaction service: its own two tables,
the retry queue, the emitted notifications and the wallet service database
reached through gRPC. -/
structure SysState where
  walletStore : WalletStore
  orders : List ForexOrder
  forexTxns : List ForexTransaction
  retryQueue : List RetryOrderEvent
  emails : List Email
  nextTxnId : Nat
deriving Repr, DecidableEq

/-- Environment of one wallet-service call made by processForexPurchase:
transportErr injects a gRPC transport failure (the wallet database is then
untouched and the caller sees that status code), rate is the exchange-rate
lookup outcome inside the wallet service, txnOk the commit outcome of the
wallet transfer transaction. -/
structure CallEnv where
  transportErr : Option GrpcStatus
  rate : Option Rat
  txnOk : Bool
deriving Repr, DecidableEq

/-! ### Transaction service operations (TransactionsService, part_017) -/

/-- forexOrderRepo.update(id, ...) patching only the given fields. -/
def updateOrderFailed (orders : List ForexOrder) (oid : Nat)
    (code : GrpcStatus) (msg : String) : List ForexOrder :=
  orders.map (fun o =>
    if o.id == oid then
      { o with status := .failed, errorStatus := some code,
               errorMessage := some msg }
    else o)

/-- manager.update(ForexOrder, id, status COMPLETED) in succeedOrder. -/
def updateOrderCompleted (orders : List ForexOrder) (oid : Nat) :
    List ForexOrder :=
  orders.map (fun o => if o.id == oid then { o with status := .completed } else o)

/-- forexTxnRepo.update(id, status FAILED, error fields) in failOrder. -/
def updateTxnFailed (txns : List ForexTransaction) (tid : Nat)
    (code : GrpcStatus) (msg : String) : List ForexTransaction :=
  txns.map (fun t =>
    if t.id == tid then
      { t with status := .failed, errorStatus := some code,
               errorMessage := some msg }
    else t)

/-- manager.update(ForexTransaction, id, status COMPLETED, rate, amount) in
succeedOrder. -/
def updateTxnCompleted (txns : List ForexTransaction) (tid : Nat)
    (r amt : Rat) : List ForexTransaction :=
  txns.map (fun t =>
    if t.id == tid then
      { t with status := .completed, exchangeRate := some r,
               targetAmount := some amt }
    else t)

/-- Result record returned by failOrder / succeedOrder. -/
structure ProcessResult where
  message : String
  forexOrderId : Nat
  forexTransactionId : Nat
deriving Repr, DecidableEq

/-- failOrder: always mark the ForexTransaction FAILED; when hardFail also
mark the ForexOrder FAILED and send the failure notification, otherwise
enqueue a retry job and leave the order untouched. -/
def failOrder (st : SysState) (o : ForexOrder) (txnId : Nat)
    (errCode : GrpcStatus) (errMessage : String) (hardFail : Bool) :
    ProcessResult × SysState :=
  let st1 := { st with forexTxns := updateTxnFailed st.forexTxns txnId errCode errMessage }
  if hardFail then
    let st2 := { st1 with
      orders := updateOrderFailed st1.orders o.id errCode errMessage,
      emails := st1.emails ++ [⟨.failure, o.userEmail, o.id⟩] }
    (⟨"Permanent failure", o.id, txnId⟩, st2)
  else
    let st2 := { st1 with
      retryQueue := st1.retryQueue ++ [⟨o.id, txnId, errCode, errMessage⟩] }
    (⟨"Temporary failure; Retrying order", o.id, txnId⟩, st2)

/-- succeedOrder: in one transaction mark the order COMPLETED and the
transaction COMPLETED with the rate and target amount, then send the
success notification. -/
def succeedOrder (st : SysState) (o : ForexOrder) (txnId : Nat)
    (res : BuyForexRes) : ProcessResult × SysState :=
  let st1 := { st with
    orders := updateOrderCompleted st.orders o.id,
    forexTxns := updateTxnCompleted st.forexTxns txnId res.exchangeRate res.targetAmount }
  let st2 := { st1 with emails := st1.emails ++ [⟨.success, o.userEmail, o.id⟩] }
  (⟨"Order completed", o.id, txnId⟩, st2)

/-- The wallet-service buyForex call as seen from the transaction service:
either a transport-level failure (wallet database untouched) or the wallet
service execution itself. -/
def walletBuyForexCall (ws : WalletStore) (o : ForexOrder) (env : CallEnv) :
    Except RpcError BuyForexRes × WalletStore :=
  match env.transportErr with
  | some c => (.error ⟨c, "transport error"⟩, ws)
  | none => buyForex ws o.userId o.baseCurrency o.targetCurrency o.amount
      env.rate env.txnOk

/-- processForexPurchase: unconditionally create a fresh ForexTransaction in
INITIATED state (the source has no check of any pre-existing transaction),
call the wallet service, then on success run succeedOrder and on failure
classify by the error code: NOT_FOUND and INVALID_ARGUMENT hard-fail, every
other code (ABORTED and the default arm of the switch) soft-fails into the
retry queue. -/
def processForexPurchase (st : SysState) (o : ForexOrder) (env : CallEnv) :
    ProcessResult × SysState :=
  let txnId := st.nextTxnId
  let newTxn : ForexTransaction :=
    ⟨txnId, o.id, o.userId, o.baseCurrency, o.targetCurrency, o.amount,
      none, none, .initiated, none, none⟩
  let st1 := { st with forexTxns := st.forexTxns ++ [newTxn],
                       nextTxnId := txnId + 1 }
  let callRes := walletBuyForexCall st1.walletStore o env
  let st2 := { st1 with walletStore := callRes.2 }
  match callRes.1 with
  | .ok res => succeedOrder st2 o txnId res
  | .error e =>
    match e.code with
    | .notFound => failOrder st2 o txnId e.code e.message true
    | .invalidArgument => failOrder st2 o txnId e.code e.message true
    | _ => failOrder st2 o txnId e.code e.message false

/-! ### Retry subsystem (retry-order.consumer.ts) -/

/-- forexOrderRepo.increment(id, retryAttempts, 1). -/
def incrementRetryAttempts (orders : List ForexOrder) (oid : Nat) :
    List ForexOrder :=
  orders.map (fun o =>
    if o.id == oid then { o with retryAttempts := o.retryAttempts + 1 } else o)

/-- findOne on the order table. -/
def findOrder (st : SysState) (oid : Nat) : Option ForexOrder :=
  st.orders.find? (fun o => o.id == oid)

/-- findOne on the forex-transaction table. -/
def findForexTxn (st : SysState) (tid : Nat) : Option ForexTransaction :=
  st.forexTxns.find? (fun t => t.id == tid)

/-- handleRetry: increment retryAttempts, reload the order and transaction;
when both exist either take the permanent-failure path directly (attempts
exhausted) or re-run processForexPurchase; a missing row discards the job. -/
def handleRetry (st : SysState) (job : RetryOrderEvent) (maxRetries : Nat)
    (env : CallEnv) : SysState :=
  let st1 := { st with orders := incrementRetryAttempts st.orders job.orderId }
  match findOrder st1 job.orderId, findForexTxn st1 job.transactionId with
  | some o, some txn =>
    if maxRetries ≤ o.retryAttempts then
      (failOrder st1 o txn.id job.errCode job.errMessage true).2
    else
      (processForexPurchase st1 o env).2
  | _, _ => st1

/-- Drive the retry worker: pop the head job of the queue, run handleRetry
with the next call environment, until the queue or the environment list is
exhausted. -/
def runRetryQueue (maxRetries : Nat) : SysState → List CallEnv → SysState
  | st, [] => st
  | st, env :: rest =>
    match st.retryQueue with
    | [] => st
    | job :: jobs =>
      runRetryQueue maxRetries
        (handleRetry { st with retryQueue := jobs } job maxRetries env) rest

/-! ### Ledger invariant material (spec section 8, claim C4) -/

/-- Signed value of a ledger row: credits and funds count positive, debits
and withdrawals negative. -/
def signedAmount (t : WalletTransaction) : Rat :=
  match t.ttype with
  | .credit => t.amount
  | .fund => t.amount
  | .debit => -t.amount
  | .withdraw => -t.amount

/-- Signed sum of the ledger rows of one wallet. -/
def txnSum (txns : List WalletTransaction) (wid : Nat) : Rat :=
  ((txns.filter (fun t => t.walletId == wid)).map signedAmount).sum

/-- One client-visible wallet-service operation, with the inputs the caller
controls plus the environment outcomes (exchange rate, commit success). -/
inductive WalletOp where
  | createW (uid : Nat) (c : String)
  | getBalance (uid : Nat) (c : String)
  | fund (walletId userId : Nat) (amount : Rat) (txnOk : Bool)
  | withdraw (walletId userId : Nat) (amount : Rat) (txnOk : Bool)
  | buy (userId : Nat) (baseCurrency targetCurrency : String) (amount : Rat)
      (rate : Option Rat) (txnOk : Bool)

/-- State reached by an operation, ignoring the response. -/
def applyOp (s : WalletStore) : WalletOp → WalletStore
  | .createW uid c => (createWallet s uid c).2
  | .getBalance uid c => (getWalletBalance s uid c).2
  | .fund wid uid amt ok => (fundWallet s wid uid amt ok).2
  | .withdraw wid uid amt ok => (withdrawWallet s wid uid amt ok).2
  | .buy uid bc tc amt rate ok => (buyForex s uid bc tc amt rate ok).2

/-- Input contract of the operations, from the spec: monetary amounts are
positive decimals, exchange rates are non-negative, and a conversion's
target currency differs from its base currency. -/
def validOp : WalletOp → Prop
  | .createW _ _ => True
  | .getBalance _ _ => True
  | .fund _ _ amt _ => 0 < amt
  | .withdraw _ _ amt _ => 0 < amt
  | .buy _ bc tc amt rate _ =>
      0 < amt ∧ bc ≠ tc ∧ ∀ r, rate = some r → 0 ≤ r

/-- States reachable from a given store by sequences of valid operations. -/
inductive ReachableFrom (s0 : WalletStore) : WalletStore → Prop where
  | refl : ReachableFrom s0 s0
  | step {s : WalletStore} (op : WalletOp) :
      ReachableFrom s0 s → validOp op → ReachableFrom s0 (applyOp s op)

/-- Internal well-formedness of the wallet database: wallet ids are
pairwise distinct, fresh-id generation never collides, and every wallet
balance is the signed sum of its ledger rows and non-negative. -/
def WellFormed (s : WalletStore) : Prop :=
  s.wallets.Pairwise (fun a b => a.id ≠ b.id) ∧
  (∀ w ∈ s.wallets, w.id < s.nextWalletId) ∧
  (∀ t ∈ s.walletTxns, t.walletId < s.nextWalletId) ∧
  (∀ w ∈ s.wallets, w.balance = txnSum s.walletTxns w.id ∧ 0 ≤ w.balance)

/-- The empty wallet database. -/
def emptyStore : WalletStore := ⟨[], [], 0⟩

/-! ### Concrete fixtures used by counterexamples and witnesses -/

/-- A store holding one USD wallet of user 1 with balance 1000. -/
def wsUser1 : WalletStore := ⟨[⟨0, 1, "USD", 1000⟩], [], 1⟩

/-- A store whose only USD wallet belongs to user 2. -/
def wsOtherUser : WalletStore := ⟨[⟨0, 2, "USD", 500⟩], [], 1⟩

/-- A store holding one USD wallet of user 1 with balance 50. -/
def wsLow : WalletStore := ⟨[⟨0, 1, "USD", 50⟩], [], 1⟩

/-- A store with a funded USD wallet whose ledger matches its balance. -/
def wsFunded : WalletStore :=
  ⟨[⟨0, 1, "USD", 100⟩], [⟨0, .fund, 100, "USD", "Fund wallet"⟩], 1⟩

/-- An order of user 1 that is already COMPLETED. -/
def doneOrder : ForexOrder :=
  ⟨5, 1, "user@example.com", "USD", "EUR", 100, .completed, 0, none, none⟩

/-- The COMPLETED execution record of doneOrder. -/
def doneTxn : ForexTransaction :=
  ⟨0, 5, 1, "USD", "EUR", 100, some (11/10), some 110, .completed, none, none⟩

/-- System state after doneOrder completed: wallet already debited and
credited, order and transaction terminal. -/
def doneState : SysState :=
  ⟨⟨[⟨0, 1, "USD", 900⟩, ⟨1, 1, "EUR", 110⟩],
    [⟨0, .debit, 100, "USD", "Debit for forex purchase"⟩,
     ⟨1, .credit, 110, "EUR", "Credit for forex purchase"⟩], 2⟩,
   [doneOrder], [doneTxn], [], [], 1⟩

/-- A PENDING order of user 1. -/
def pendingOrder : ForexOrder :=
  ⟨5, 1, "user@example.com", "USD", "EUR", 100, .pending, 0, none, none⟩

/-- Fresh system state holding only pendingOrder, over wsUser1. -/
def pendingState : SysState := ⟨wsUser1, [pendingOrder], [], [], [], 0⟩

/-- Call environment of a successful execution at rate 1.10. -/
def envOk : CallEnv := ⟨none, some (11/10), true⟩

/-- Call environment of a transient failure: the wallet call times out. -/
def envTimeout : CallEnv := ⟨some .deadlineExceeded, none, true⟩

/-! ## Claim theorems -/

/-- C1: the claim fails on the code.  processForexPurchase has no check of a
pre-existing terminal ForexTransaction: re-invoking it on an order that is
already COMPLETED (doneState holds the COMPLETED order, its COMPLETED
transaction, and the already-transferred balances 900 USD / 110 EUR)
performs a second wallet transfer (USD drops to 800, EUR rises to 220) and
creates a second ForexTransaction, instead of returning immediately. -/
theorem c1_reexecuting_completed_order_transfers_again :
    doneOrder.status = OrderStatus.completed ∧
    doneTxn.status = TransactionStatus.completed ∧
    (processForexPurchase doneState doneOrder envOk).2.walletStore.wallets =
      [⟨0, 1, "USD", 800⟩, ⟨1, 1, "EUR", 220⟩] ∧
    (processForexPurchase doneState doneOrder envOk).2.forexTxns.length = 2 := by
  refine ⟨rfl, rfl, ?_, rfl⟩
  simp [processForexPurchase, walletBuyForexCall, buyForex, doneState,
    doneOrder, doneTxn, envOk, findBaseWalletOrFail, findWalletByCurrency,
    validateSufficientFund, getOrCreateTargetWalletInTxn, setWalletBalance,
    succeedOrder, updateOrderCompleted, updateTxnCompleted]
  norm_num

/-- C2: the claim fails on the code.  findBaseWalletOrFail and the target
lookup filter by currency alone, so a buyForex request of user 1 resolves
and debits the USD wallet that belongs to user 2 (balance 500 drops to
400): the transfer mutates a wallet of a different user. -/
theorem c2_transfer_debits_wallet_of_other_user :
    (buyForex wsOtherUser 1 "USD" "EUR" 100 (some 1) true).2.wallets =
      [⟨0, 2, "USD", 400⟩, ⟨1, 1, "EUR", 100⟩] ∧ (2 : Nat) ≠ 1 := by
  refine ⟨?_, by decide⟩
  simp [buyForex, wsOtherUser, findBaseWalletOrFail, findWalletByCurrency,
    validateSufficientFund, getOrCreateTargetWalletInTxn, setWalletBalance]
  norm_num

/-- C3 counterexample: a FAILED_PRECONDITION execution failure does not take
the permanent path: the order stays PENDING and a retry job is enqueued,
contradicting the claim that FailedPrecondition marks the order FAILED with
no retry. -/
theorem c3_cx_failed_precondition_is_retried :
    ((processForexPurchase pendingState pendingOrder
        ⟨some .failedPrecondition, none, true⟩).2.orders.map
      (fun o => o.status)) = [OrderStatus.pending] ∧
    (processForexPurchase pendingState pendingOrder
        ⟨some .failedPrecondition, none, true⟩).2.retryQueue.length = 1 := by
  constructor <;>
    simp [processForexPurchase, walletBuyForexCall, pendingState, pendingOrder,
      failOrder, updateTxnFailed, wsUser1]

/-- C4 counterexample: a same-currency purchase (USD to USD, amount 10 at
rate 1) breaks the ledger correspondence: the second save overwrites the
debit, the wallet balance becomes 110, but the signed ledger sum is 100. -/
theorem c4_cx_same_currency_purchase_breaks_ledger_sum :
    (buyForex wsFunded 1 "USD" "USD" 10 (some 1) true).2.wallets =
      [⟨0, 1, "USD", 110⟩] ∧
    txnSum (buyForex wsFunded 1 "USD" "USD" 10 (some 1) true).2.walletTxns 0
      = 100 ∧ (110 : Rat) ≠ 100 := by
  refine ⟨?_, ?_, by norm_num⟩ <;>
    · simp [buyForex, wsFunded, findBaseWalletOrFail, findWalletByCurrency,
        validateSufficientFund, getOrCreateTargetWalletInTxn, setWalletBalance,
        txnSum, signedAmount, List.filter]
      try norm_num

/-- C7 counterexample: a withdrawal of 100 from a wallet holding 50 fails
fast with INVALID_ARGUMENT, not with FAILED_PRECONDITION as the claim
states (the store is indeed unchanged). -/
theorem c7_cx_insufficient_funds_is_invalid_argument :
    (withdrawWallet wsLow 0 1 100 true).1 =
      .error ⟨.invalidArgument, "Insufficient balance"⟩ ∧
    (withdrawWallet wsLow 0 1 100 true).2 = wsLow ∧
    GrpcStatus.invalidArgument ≠ GrpcStatus.failedPrecondition :=
  ⟨rfl, rfl, by decide⟩

/-- C8 counterexample: executing the same order twice (an execution and its
redelivered retry) leaves two ForexTransaction rows for that order id,
contradicting the claim that no sequence of executions yields two rows. -/
theorem c8_cx_two_executions_two_transaction_rows :
    ((processForexPurchase
        (processForexPurchase pendingState pendingOrder envTimeout).2
        pendingOrder envTimeout).2.forexTxns.filter
      (fun t => t.orderId == pendingOrder.id)).length = 2 := by
  simp [processForexPurchase, walletBuyForexCall, pendingState, pendingOrder,
    envTimeout, failOrder, updateTxnFailed, List.filter]

/-- Amended C3 classification, fully general in the failing status code:
NOT_FOUND and INVALID_ARGUMENT hard-fail (order FAILED, no retry job, one
failure notification); every other code, including FAILED_PRECONDITION,
ABORTED, UNAVAILABLE and DEADLINE_EXCEEDED, soft-fails (order untouched,
transaction FAILED, exactly one retry job enqueued, no notification). -/
theorem c3_failure_classification (oid uid tid : Nat) (em bc tc : String)
    (amt : Rat) (os : OrderStatus) (ra : Nat) (es : Option GrpcStatus)
    (ems : Option String) (ws : WalletStore) (q : List RetryOrderEvent)
    (el : List Email) (c : GrpcStatus) :
    ((c = .notFound ∨ c = .invalidArgument) →
      (processForexPurchase
          ⟨ws, [⟨oid, uid, em, bc, tc, amt, os, ra, es, ems⟩], [], q, el, tid⟩
          ⟨oid, uid, em, bc, tc, amt, os, ra, es, ems⟩ ⟨some c, none, true⟩).2 =
        ⟨ws, [⟨oid, uid, em, bc, tc, amt, .failed, ra, some c, some "transport error"⟩],
          [⟨tid, oid, uid, bc, tc, amt, none, none, .failed, some c, some "transport error"⟩],
          q, el ++ [⟨.failure, em, oid⟩], tid + 1⟩) ∧
    (c ≠ .notFound → c ≠ .invalidArgument →
      (processForexPurchase
          ⟨ws, [⟨oid, uid, em, bc, tc, amt, os, ra, es, ems⟩], [], q, el, tid⟩
          ⟨oid, uid, em, bc, tc, amt, os, ra, es, ems⟩ ⟨some c, none, true⟩).2 =
        ⟨ws, [⟨oid, uid, em, bc, tc, amt, os, ra, es, ems⟩],
          [⟨tid, oid, uid, bc, tc, amt, none, none, .failed, some c, some "transport error"⟩],
          q ++ [⟨oid, tid, c, "transport error"⟩], el, tid + 1⟩) := by
  cases c <;>
    simp [processForexPurchase, walletBuyForexCall, failOrder,
      updateTxnFailed, updateOrderFailed]

/-- Witness for c3_failure_classification: a NOT_FOUND failure hard-fails
the concrete pending order, an ABORTED failure enqueues one retry job. -/
theorem c3_failure_classification_witness :
    (processForexPurchase
        ⟨wsUser1, [⟨5, 1, "user@example.com", "USD", "EUR", 100, .pending, 0, none, none⟩],
          [], [], [], 0⟩
        ⟨5, 1, "user@example.com", "USD", "EUR", 100, .pending, 0, none, none⟩
        ⟨some .notFound, none, true⟩).2 =
      ⟨wsUser1,
        [⟨5, 1, "user@example.com", "USD", "EUR", 100, .failed, 0,
          some .notFound, some "transport error"⟩],
        [⟨0, 5, 1, "USD", "EUR", 100, none, none, .failed,
          some .notFound, some "transport error"⟩],
        [], [⟨.failure, "user@example.com", 5⟩], 1⟩ ∧
    (processForexPurchase
        ⟨wsUser1, [⟨5, 1, "user@example.com", "USD", "EUR", 100, .pending, 0, none, none⟩],
          [], [], [], 0⟩
        ⟨5, 1, "user@example.com", "USD", "EUR", 100, .pending, 0, none, none⟩
        ⟨some .aborted, none, true⟩).2 =
      ⟨wsUser1,
        [⟨5, 1, "user@example.com", "USD", "EUR", 100, .pending, 0, none, none⟩],
        [⟨0, 5, 1, "USD", "EUR", 100, none, none, .failed,
          some .aborted, some "transport error"⟩],
        [⟨5, 0, .aborted, "transport error"⟩], [], 1⟩ :=
  ⟨(c3_failure_classification 5 1 0 "user@example.com" "USD" "EUR" 100
      .pending 0 none none wsUser1 [] [] .notFound).1 (Or.inl rfl),
   (c3_failure_classification 5 1 0 "user@example.com" "USD" "EUR" 100
      .pending 0 none none wsUser1 [] [] .aborted).2 (by decide) (by decide)⟩

/-- C5: when the base wallet exists and has sufficient funds but the wallet
transfer transaction fails mid-way, the whole buyForex operation returns
the ABORTED error of the source and the wallet database is exactly the
pre-call database: both balances and the ledger are unchanged. -/
theorem c5_transfer_rolls_back_atomically (s : WalletStore) (uid : Nat)
    (bc tc : String) (amt r : Rat) (w : Wallet)
    (hw : findWalletByCurrency s bc = some w) (hs : ¬ w.balance < amt) :
    buyForex s uid bc tc amt (some r) false =
      (.error ⟨.aborted, "Could not complete forex purchase try again later"⟩, s) := by
  simp [buyForex, findBaseWalletOrFail, hw, validateSufficientFund, hs]

/-- Witness for c5_transfer_rolls_back_atomically on a concrete store. -/
theorem c5_transfer_rolls_back_atomically_witness :
    buyForex wsUser1 1 "USD" "EUR" 100 (some 2) false =
      (.error ⟨.aborted, "Could not complete forex purchase try again later"⟩,
        wsUser1) :=
  c5_transfer_rolls_back_atomically wsUser1 1 "USD" "EUR" 100 2
    ⟨0, 1, "USD", 1000⟩ (by rfl) (by decide)

/-- C6: an order that fails transiently on its initial execution and on
every retry ends FAILED with retryAttempts equal to maxRetries = 3, exactly
one failure notification is emitted, only three execution attempts created
a ForexTransaction (the exhausting job bypasses execution), the queue
drains, and the wallet database is untouched. -/
theorem c6_retry_exhaustion_marks_failed (oid uid : Nat) (em bc tc : String)
    (amt : Rat) (ws : WalletStore) :
    (runRetryQueue 3
      (processForexPurchase
        ⟨ws, [⟨oid, uid, em, bc, tc, amt, .pending, 0, none, none⟩], [], [], [], 0⟩
        ⟨oid, uid, em, bc, tc, amt, .pending, 0, none, none⟩ envTimeout).2
      [envTimeout, envTimeout, envTimeout, envTimeout]).orders =
      [⟨oid, uid, em, bc, tc, amt, .failed, 3, some .deadlineExceeded,
        some "transport error"⟩] ∧
    ((runRetryQueue 3
      (processForexPurchase
        ⟨ws, [⟨oid, uid, em, bc, tc, amt, .pending, 0, none, none⟩], [], [], [], 0⟩
        ⟨oid, uid, em, bc, tc, amt, .pending, 0, none, none⟩ envTimeout).2
      [envTimeout, envTimeout, envTimeout, envTimeout]).emails.filter
        (fun e => e.kind == .failure)).length = 1 ∧
    (runRetryQueue 3
      (processForexPurchase
        ⟨ws, [⟨oid, uid, em, bc, tc, amt, .pending, 0, none, none⟩], [], [], [], 0⟩
        ⟨oid, uid, em, bc, tc, amt, .pending, 0, none, none⟩ envTimeout).2
      [envTimeout, envTimeout, envTimeout, envTimeout]).forexTxns.length = 3 ∧
    (runRetryQueue 3
      (processForexPurchase
        ⟨ws, [⟨oid, uid, em, bc, tc, amt, .pending, 0, none, none⟩], [], [], [], 0⟩
        ⟨oid, uid, em, bc, tc, amt, .pending, 0, none, none⟩ envTimeout).2
      [envTimeout, envTimeout, envTimeout, envTimeout]).retryQueue = [] ∧
    (runRetryQueue 3
      (processForexPurchase
        ⟨ws, [⟨oid, uid, em, bc, tc, amt, .pending, 0, none, none⟩], [], [], [], 0⟩
        ⟨oid, uid, em, bc, tc, amt, .pending, 0, none, none⟩ envTimeout).2
      [envTimeout, envTimeout, envTimeout, envTimeout]).walletStore = ws := by
  simp [runRetryQueue, handleRetry, processForexPurchase, walletBuyForexCall,
    failOrder, succeedOrder, incrementRetryAttempts, findOrder, findForexTxn,
    updateTxnFailed, updateOrderFailed, envTimeout, List.filter]

/-- Amended C7: a withdrawal or a forex purchase on a wallet whose balance
is below the requested amount fails fast with INVALID_ARGUMENT before any
write: the returned store is exactly the input store. -/
theorem c7_insufficient_funds_fail_fast (s : WalletStore) (wid uid uid2 : Nat)
    (amt : Rat) (w : Wallet) (bc tc : String) (r : Option Rat) (ok : Bool) :
    (findWalletByIdUser s wid uid = some w → w.balance < amt →
      withdrawWallet s wid uid amt ok =
        (.error ⟨.invalidArgument, "Insufficient balance"⟩, s)) ∧
    (findWalletByCurrency s bc = some w → w.balance < amt →
      buyForex s uid2 bc tc amt r ok =
        (.error ⟨.invalidArgument, "Insufficient balance"⟩, s)) := by
  constructor
  · intro h1 h2
    simp [withdrawWallet, handleWalletTransaction, h1, validateSufficientFund, h2]
  · intro h1 h2
    simp [buyForex, findBaseWalletOrFail, h1, validateSufficientFund, h2]

/-- Witness for c7_insufficient_funds_fail_fast: withdrawing or buying 100
from the 50-balance wallet of wsLow fails with INVALID_ARGUMENT and leaves
the store unchanged. -/
theorem c7_insufficient_funds_fail_fast_witness :
    withdrawWallet wsLow 0 1 100 true =
      (.error ⟨.invalidArgument, "Insufficient balance"⟩, wsLow) ∧
    buyForex wsLow 9 "USD" "EUR" 100 (some 2) true =
      (.error ⟨.invalidArgument, "Insufficient balance"⟩, wsLow) :=
  ⟨(c7_insufficient_funds_fail_fast wsLow 0 1 9 100 ⟨0, 1, "USD", 50⟩
      "USD" "EUR" (some 2) true).1 (by rfl) (by decide),
   (c7_insufficient_funds_fail_fast wsLow 0 1 9 100 ⟨0, 1, "USD", 50⟩
      "USD" "EUR" (some 2) true).2 (by rfl) (by decide)⟩

/-- Updating a ForexTransaction to FAILED preserves the row ids. -/
theorem updateTxnFailed_map_id (l : List ForexTransaction) (tid : Nat)
    (c : GrpcStatus) (m : String) :
    (updateTxnFailed l tid c m).map (fun t => t.id) = l.map (fun t => t.id) := by
  simp only [updateTxnFailed, List.map_map]
  refine List.map_congr_left (fun t _ => ?_)
  simp only [Function.comp_apply]
  split <;> rfl

/-- Updating a ForexTransaction to COMPLETED preserves the row ids. -/
theorem updateTxnCompleted_map_id (l : List ForexTransaction) (tid : Nat)
    (r a : Rat) :
    (updateTxnCompleted l tid r a).map (fun t => t.id) = l.map (fun t => t.id) := by
  simp only [updateTxnCompleted, List.map_map]
  refine List.map_congr_left (fun t _ => ?_)
  simp only [Function.comp_apply]
  split <;> rfl

/-- Updating a ForexTransaction to FAILED preserves how many rows belong to
each order. -/
theorem updateTxnFailed_countP_order (l : List ForexTransaction) (tid : Nat)
    (c : GrpcStatus) (m : String) (k : Nat) :
    (updateTxnFailed l tid c m).countP (fun t => t.orderId == k) =
      l.countP (fun t => t.orderId == k) := by
  simp only [updateTxnFailed, List.countP_map]
  refine List.countP_congr (fun t _ => ?_)
  simp only [Function.comp_apply]
  split <;> rfl

/-- Updating a ForexTransaction to COMPLETED preserves how many rows belong
to each order. -/
theorem updateTxnCompleted_countP_order (l : List ForexTransaction) (tid : Nat)
    (r a : Rat) (k : Nat) :
    (updateTxnCompleted l tid r a).countP (fun t => t.orderId == k) =
      l.countP (fun t => t.orderId == k) := by
  simp only [updateTxnCompleted, List.countP_map]
  refine List.countP_congr (fun t _ => ?_)
  simp only [Function.comp_apply]
  split <;> rfl

/-- Amended C8: every invocation of processForexPurchase appends exactly one
fresh ForexTransaction row (ids of existing rows are preserved, so rows are
updated in place, never duplicated), and the number of rows belonging to
the processed order grows by exactly one — one row per execution attempt,
not one per order. -/
theorem c8_each_execution_adds_one_transaction (st : SysState)
    (o : ForexOrder) (env : CallEnv) :
    (processForexPurchase st o env).2.forexTxns.map (fun t => t.id) =
      st.forexTxns.map (fun t => t.id) ++ [st.nextTxnId] ∧
    (processForexPurchase st o env).2.forexTxns.countP
        (fun t => t.orderId == o.id) =
      st.forexTxns.countP (fun t => t.orderId == o.id) + 1 := by
  simp only [processForexPurchase]
  rcases hw : (walletBuyForexCall st.walletStore o env).1 with ⟨c, m⟩ | res
  · cases c <;>
      simp [hw, failOrder, updateTxnFailed_map_id, updateTxnFailed_countP_order,
        List.countP_append, List.countP_cons]
  · simp [hw, succeedOrder, updateTxnCompleted_map_id,
      updateTxnCompleted_countP_order, List.countP_append, List.countP_cons]

/-- C9: a successful execution debits the base wallet by the order amount,
credits the freshly created target wallet with exactly amount times rate
(exact rational arithmetic), appends the matching DEBIT and CREDIT ledger
rows, marks order and transaction COMPLETED, and records exchangeRate and
targetAmount as exactly the rate and the product. -/
theorem c9_success_credits_exact_product (oid uid wuid wid nid tid : Nat)
    (em bc tc : String) (amt r bal : Rat) (ltx : List WalletTransaction)
    (q : List RetryOrderEvent) (el : List Email)
    (htc : bc ≠ tc) (hid : wid ≠ nid) (hsuff : ¬ bal < amt) :
    processForexPurchase
      ⟨⟨[⟨wid, wuid, bc, bal⟩], ltx, nid⟩,
        [⟨oid, uid, em, bc, tc, amt, .pending, 0, none, none⟩], [], q, el, tid⟩
      ⟨oid, uid, em, bc, tc, amt, .pending, 0, none, none⟩ ⟨none, some r, true⟩ =
    (⟨"Order completed", oid, tid⟩,
      ⟨⟨[⟨wid, wuid, bc, bal - amt⟩, ⟨nid, uid, tc, 0 + amt * r⟩],
          ltx ++ [⟨wid, .debit, amt, bc, "Debit for forex purchase"⟩,
                  ⟨nid, .credit, amt * r, tc, "Credit for forex purchase"⟩], nid + 1⟩,
        [⟨oid, uid, em, bc, tc, amt, .completed, 0, none, none⟩],
        [⟨tid, oid, uid, bc, tc, amt, some r, some (amt * r), .completed, none, none⟩],
        q, el ++ [⟨.success, em, oid⟩], tid + 1⟩) := by
  simp [processForexPurchase, walletBuyForexCall, buyForex, findBaseWalletOrFail,
    findWalletByCurrency, validateSufficientFund, hsuff,
    getOrCreateTargetWalletInTxn, setWalletBalance, succeedOrder,
    updateOrderCompleted, updateTxnCompleted, htc, hid, Ne.symm hid,
    beq_iff_eq]

/-- Witness for c9_success_credits_exact_product: buying 100 USD of EUR at
rate 2 from a 1000 USD wallet leaves 900 USD, credits 200 EUR, and records
exchangeRate 2 and targetAmount 200 on the COMPLETED transaction. -/
theorem c9_success_credits_exact_product_witness :
    processForexPurchase
      ⟨⟨[⟨0, 1, "USD", 1000⟩], [], 1⟩,
        [⟨5, 1, "user@example.com", "USD", "EUR", 100, .pending, 0, none, none⟩],
        [], [], [], 0⟩
      ⟨5, 1, "user@example.com", "USD", "EUR", 100, .pending, 0, none, none⟩
      ⟨none, some 2, true⟩ =
    (⟨"Order completed", 5, 0⟩,
      ⟨⟨[⟨0, 1, "USD", 900⟩, ⟨1, 1, "EUR", 200⟩],
          [⟨0, .debit, 100, "USD", "Debit for forex purchase"⟩,
           ⟨1, .credit, 200, "EUR", "Credit for forex purchase"⟩], 2⟩,
        [⟨5, 1, "user@example.com", "USD", "EUR", 100, .completed, 0, none, none⟩],
        [⟨0, 5, 1, "USD", "EUR", 100, some 2, some 200, .completed, none, none⟩],
        [], [⟨.success, "user@example.com", 5⟩], 1⟩) := by
  have h := c9_success_credits_exact_product 5 1 1 0 1 0 "user@example.com"
    "USD" "EUR" 100 2 1000 [] [] [] (by decide) (by decide) (by decide)
  norm_num at h
  exact h

/-- C10: getWalletBalance never raises NOT_FOUND: it always returns ok; on
an existing (userId, currency) wallet it returns that wallet and leaves the
store unchanged, and on a missing one it creates and returns a fresh wallet
with balance 0 for exactly that (userId, currency) pair. -/
theorem c10_get_wallet_balance_lazily_creates (s : WalletStore) (uid : Nat)
    (c : String) (w : Wallet) :
    (∃ e st2, getWalletBalance s uid c = (.ok e, st2)) ∧
    (findWalletByUserCurrency s uid c = some w →
      getWalletBalance s uid c =
        (.ok ⟨w.id, w.userId, w.balance, w.currency⟩, s)) ∧
    (findWalletByUserCurrency s uid c = none →
      getWalletBalance s uid c =
        (.ok ⟨s.nextWalletId, uid, 0, c⟩,
          { s with wallets := s.wallets ++ [⟨s.nextWalletId, uid, c, 0⟩],
                   nextWalletId := s.nextWalletId + 1 })) := by
  cases h : findWalletByUserCurrency s uid c <;>
    simp_all [getWalletBalance, createWallet, h]

/-- Witness for c10_get_wallet_balance_lazily_creates: an existing wallet is
returned unchanged; a missing one is created with balance 0. -/
theorem c10_get_wallet_balance_lazily_creates_witness :
    getWalletBalance wsUser1 1 "USD" = (.ok ⟨0, 1, 1000, "USD"⟩, wsUser1) ∧
    getWalletBalance emptyStore 1 "USD" =
      (.ok ⟨0, 1, 0, "USD"⟩, ⟨[⟨0, 1, "USD", 0⟩], [], 1⟩) :=
  ⟨(c10_get_wallet_balance_lazily_creates wsUser1 1 "USD"
      ⟨0, 1, "USD", 1000⟩).2.1 (by rfl),
   (c10_get_wallet_balance_lazily_creates emptyStore 1 "USD"
      ⟨0, 0, "X", 0⟩).2.2 (by rfl)⟩

/-- Signed ledger sum of the empty ledger. -/
theorem txnSum_nil (wid : Nat) : txnSum [] wid = 0 := rfl

/-- Appending one ledger row adds its signed value to the sum of its wallet. -/
theorem txnSum_append1 (l : List WalletTransaction) (t : WalletTransaction)
    (wid : Nat) :
    txnSum (l ++ [t]) wid =
      txnSum l wid + (if t.walletId = wid then signedAmount t else 0) := by
  simp only [txnSum, List.filter_append, List.map_append, List.sum_append]
  by_cases h : t.walletId = wid <;> simp [h]

/-- Appending two ledger rows adds both signed values. -/
theorem txnSum_append2 (l : List WalletTransaction) (t1 t2 : WalletTransaction)
    (wid : Nat) :
    txnSum (l ++ [t1, t2]) wid =
      txnSum l wid + (if t1.walletId = wid then signedAmount t1 else 0) +
        (if t2.walletId = wid then signedAmount t2 else 0) := by
  have h : l ++ [t1, t2] = (l ++ [t1]) ++ [t2] := by simp
  rw [h, txnSum_append1, txnSum_append1]

/-- A wallet with no ledger rows has signed sum 0. -/
theorem txnSum_eq_zero {l : List WalletTransaction} {wid : Nat}
    (h : ∀ t ∈ l, t.walletId ≠ wid) : txnSum l wid = 0 := by
  have : l.filter (fun t => t.walletId == wid) = [] := by
    rw [List.filter_eq_nil_iff]
    intro t ht
    simpa using h t ht
  simp [txnSum, this]

/-- A wallet found by currency is a stored wallet with that currency. -/
theorem find_currency_props {s : WalletStore} {c : String} {w : Wallet}
    (h : findWalletByCurrency s c = some w) :
    w ∈ s.wallets ∧ w.currency = c := by
  refine ⟨List.mem_of_find?_eq_some h, ?_⟩
  have := List.find?_some h
  simpa using this

/-- A wallet found by id and user is a stored wallet with that id. -/
theorem find_idUser_props {s : WalletStore} {wid uid : Nat} {w : Wallet}
    (h : findWalletByIdUser s wid uid = some w) :
    w ∈ s.wallets ∧ w.id = wid := by
  refine ⟨List.mem_of_find?_eq_some h, ?_⟩
  have := List.find?_some h
  simp at this
  exact this.1

/-- A wallet found by user and currency is stored. -/
theorem find_userCurrency_props {s : WalletStore} {uid : Nat} {c : String}
    {w : Wallet} (h : findWalletByUserCurrency s uid c = some w) :
    w ∈ s.wallets := List.mem_of_find?_eq_some h

/-- Under pairwise-distinct ids, two stored wallets with equal id coincide. -/
theorem id_unique {l : List Wallet}
    (hp : l.Pairwise (fun a b => a.id ≠ b.id)) {v w : Wallet}
    (hv : v ∈ l) (hw : w ∈ l) (h : v.id = w.id) : v = w := by
  by_contra hne
  exact (hp.forall (fun a b hab => hab.symm) hv hw hne) h

/-- createWallet preserves well-formedness. -/
theorem wf_createWallet (s : WalletStore) (uid : Nat) (c : String)
    (h : WellFormed s) : WellFormed (createWallet s uid c).2 := by
  obtain ⟨hpw, hidlt, htx, hbal⟩ := h
  unfold createWallet
  cases hf : findWalletByUserCurrency s uid c with
  | some w => exact ⟨hpw, hidlt, htx, hbal⟩
  | none =>
    refine ⟨?_, ?_, ?_, ?_⟩
    · rw [List.pairwise_append]
      refine ⟨hpw, by simp, ?_⟩
      intro a ha b hb
      simp at hb
      subst hb
      simp
      exact Nat.ne_of_lt (hidlt a ha)
    · intro w hw
      simp at hw
      rcases hw with hw | hw
      · exact Nat.lt_succ_of_lt (hidlt w hw)
      · subst hw; simp
    · intro t ht
      exact Nat.lt_succ_of_lt (htx t ht)
    · intro w hw
      simp at hw
      rcases hw with hw | hw
      · exact hbal w hw
      · subst hw
        refine ⟨?_, le_refl 0⟩
        rw [txnSum_eq_zero]
        intro t ht
        simp
        exact Nat.ne_of_lt (htx t ht)

/-- getWalletBalance preserves well-formedness. -/
theorem wf_getWalletBalance (s : WalletStore) (uid : Nat) (c : String)
    (h : WellFormed s) : WellFormed (getWalletBalance s uid c).2 := by
  unfold getWalletBalance
  cases hf : findWalletByUserCurrency s uid c with
  | some w => exact h
  | none => exact wf_createWallet s uid c h


/-- Core preservation step of handleWalletTransaction: overwriting one
wallet balance with its old balance plus the signed value of the single
ledger row inserted alongside keeps the store well formed. -/
theorem wf_update_one (s : WalletStore) (w : Wallet) (hw : w ∈ s.wallets)
    (h : WellFormed s) (nb : Rat) (t : WalletTransaction)
    (ht_id : t.walletId = w.id) (hnb_sum : nb = w.balance + signedAmount t)
    (hnb_nonneg : 0 ≤ nb) :
    WellFormed
      { setWalletBalance s w.id nb with walletTxns := s.walletTxns ++ [t] } := by
  obtain ⟨hpw, hidlt, htx, hbal⟩ := h
  have gid : ∀ v : Wallet,
      (if v.id == w.id then { v with balance := nb } else v).id = v.id := by
    intro v; split <;> rfl
  refine ⟨?_, ?_, ?_, ?_⟩
  · simp only [setWalletBalance, List.pairwise_map]
    exact hpw.imp (fun {a b} hab => by simp only [gid]; exact hab)
  · intro v' hv'
    simp only [setWalletBalance, List.mem_map] at hv'
    obtain ⟨v, hv, rfl⟩ := hv'
    rw [gid]
    exact hidlt v hv
  · intro t' ht'
    simp only [List.mem_append, List.mem_singleton] at ht'
    rcases ht' with ht' | ht'
    · exact htx t' ht'
    · subst ht'
      rw [ht_id]
      exact hidlt w hw
  · intro v' hv'
    simp only [setWalletBalance, List.mem_map] at hv'
    obtain ⟨v, hv, rfl⟩ := hv'
    by_cases hv_id : v.id = w.id
    · have hvw : v = w := id_unique hpw hv hw hv_id
      subst hvw
      simp only [beq_self_eq_true, if_true, gid]
      refine ⟨?_, hnb_nonneg⟩
      rw [txnSum_append1, ht_id, if_pos rfl, hnb_sum, (hbal v hv).1]
    · have hne : (v.id == w.id) = false := by simpa using hv_id
      rw [hne]
      simp only [Bool.false_eq_true, if_false, gid]
      rw [txnSum_append1, if_neg (by rw [ht_id]; exact fun hh => hv_id hh.symm)]
      simpa using hbal v hv

/-- Core preservation step of buyForex: overwriting the two distinct
wallet rows of a conversion with their balances shifted by the signed
values of the two inserted ledger rows keeps the store well formed. -/
theorem wf_update_two (s : WalletStore) (w1 w2 : Wallet)
    (hw1 : w1 ∈ s.wallets) (hw2 : w2 ∈ s.wallets) (hne : w1.id ≠ w2.id)
    (h : WellFormed s) (nb1 nb2 : Rat) (t1 t2 : WalletTransaction)
    (ht1 : t1.walletId = w1.id) (ht2 : t2.walletId = w2.id)
    (hs1 : nb1 = w1.balance + signedAmount t1)
    (hs2 : nb2 = w2.balance + signedAmount t2)
    (hn1 : 0 ≤ nb1) (hn2 : 0 ≤ nb2) :
    WellFormed
      { setWalletBalance (setWalletBalance s w1.id nb1) w2.id nb2 with
          walletTxns := s.walletTxns ++ [t1, t2] } := by
  obtain ⟨hpw, hidlt, htx, hbal⟩ := h
  refine ⟨?_, ?_, ?_, ?_⟩
  · simp only [setWalletBalance, List.map_map, List.pairwise_map]
    exact hpw.imp (fun {a b} hab => by
      simp only [Function.comp_apply, apply_ite Wallet.id, ite_self]
      exact hab)
  · intro v' hv'
    simp only [setWalletBalance, List.map_map, List.mem_map] at hv'
    obtain ⟨v, hv, rfl⟩ := hv'
    simp only [Function.comp_apply, apply_ite Wallet.id, ite_self]
    exact hidlt v hv
  · intro t' ht'
    simp only [List.mem_append, List.mem_cons, List.mem_singleton] at ht'
    rcases ht' with ht' | ht' | ht'
    · exact htx t' ht'
    · subst ht'; rw [ht1]; exact hidlt w1 hw1
    · rcases ht' with ht' | ht'
      · subst ht'; rw [ht2]; exact hidlt w2 hw2
      · simp at ht'
  · intro v' hv'
    simp only [setWalletBalance, List.map_map, List.mem_map] at hv'
    obtain ⟨v, hv, rfl⟩ := hv'
    simp only [Function.comp_apply, apply_ite Wallet.id, ite_self]
    by_cases h1 : v.id = w1.id
    · have hvw : v = w1 := id_unique hpw hv hw1 h1
      have hA : (v.id == w1.id) = true := by simp [h1]
      have hB : (v.id == w2.id) = false := by
        simp only [beq_eq_false_iff_ne, ne_eq, h1]
        exact hne
      simp only [hA, if_true, hB, Bool.false_eq_true, if_false]
      refine ⟨?_, hn1⟩
      rw [txnSum_append2, if_pos (by rw [ht1, h1]),
        if_neg (by rw [ht2]; exact fun hh => (h1 ▸ hne) hh.symm)]
      rw [hs1, ← hvw, (hbal v hv).1]
      ring
    · by_cases h2 : v.id = w2.id
      · have hvw : v = w2 := id_unique hpw hv hw2 h2
        have hA : (v.id == w1.id) = false := by simpa using h1
        have hB : (v.id == w2.id) = true := by simp [h2]
        simp only [hA, Bool.false_eq_true, if_false, hB, if_true]
        refine ⟨?_, hn2⟩
        rw [txnSum_append2, if_neg (by rw [ht1]; exact fun hh => h1 hh.symm),
          if_pos (by rw [ht2, h2])]
        rw [hs2, ← hvw, (hbal v hv).1]
        ring
      · have hA : (v.id == w1.id) = false := by simpa using h1
        have hB : (v.id == w2.id) = false := by simpa using h2
        simp only [hA, hB, Bool.false_eq_true, if_false]
        rw [txnSum_append2, if_neg (by rw [ht1]; exact fun hh => h1 hh.symm),
          if_neg (by rw [ht2]; exact fun hh => h2 hh.symm)]
        simpa using hbal v hv

/-- Inserting a fresh wallet with balance 0 keeps the store well formed. -/
theorem wf_insert_fresh (s : WalletStore) (uid : Nat) (c : String)
    (h : WellFormed s) :
    WellFormed
      { s with wallets := s.wallets ++ [⟨s.nextWalletId, uid, c, 0⟩],
               nextWalletId := s.nextWalletId + 1 } := by
  obtain ⟨hpw, hidlt, htx, hbal⟩ := h
  refine ⟨?_, ?_, ?_, ?_⟩
  · rw [List.pairwise_append]
    refine ⟨hpw, by simp, ?_⟩
    intro a ha b hb
    simp at hb
    subst hb
    simp
    exact Nat.ne_of_lt (hidlt a ha)
  · intro w hw
    simp at hw
    rcases hw with hw | hw
    · exact Nat.lt_succ_of_lt (hidlt w hw)
    · subst hw; simp
  · intro t ht
    exact Nat.lt_succ_of_lt (htx t ht)
  · intro w hw
    simp at hw
    rcases hw with hw | hw
    · exact hbal w hw
    · subst hw
      refine ⟨?_, le_refl 0⟩
      rw [txnSum_eq_zero]
      intro t ht
      simp
      exact Nat.ne_of_lt (htx t ht)

/-- fundWallet preserves well-formedness for positive amounts. -/
theorem wf_fundWallet (s : WalletStore) (wid uid : Nat) (amt : Rat) (ok : Bool)
    (h : WellFormed s) (hamt : 0 < amt) :
    WellFormed (fundWallet s wid uid amt ok).2 := by
  unfold fundWallet handleWalletTransaction
  cases hf : findWalletByIdUser s wid uid with
  | none => simpa using h
  | some w =>
    obtain ⟨hmem, -⟩ := find_idUser_props hf
    cases ok with
    | false => simpa using h
    | true =>
      have hb0 : 0 ≤ w.balance := (h.2.2.2 w hmem).2
      simpa using wf_update_one s w hmem h (w.balance + amt)
        ⟨w.id, .fund, amt, w.currency, "Fund wallet"⟩ rfl
        (by simp [signedAmount]) (add_nonneg hb0 hamt.le)

/-- withdrawWallet preserves well-formedness: the sufficiency guard keeps
the debited balance non-negative. -/
theorem wf_withdrawWallet (s : WalletStore) (wid uid : Nat) (amt : Rat)
    (ok : Bool) (h : WellFormed s) :
    WellFormed (withdrawWallet s wid uid amt ok).2 := by
  unfold withdrawWallet handleWalletTransaction
  cases hf : findWalletByIdUser s wid uid with
  | none => simpa using h
  | some w =>
    obtain ⟨hmem, -⟩ := find_idUser_props hf
    by_cases hlt : w.balance < amt
    · cases ok <;> simpa [validateSufficientFund, hlt] using h
    · cases ok with
      | false => simpa [validateSufficientFund, hlt] using h
      | true =>
        have hsum : w.balance - amt = w.balance +
            signedAmount ⟨w.id, .withdraw, amt, w.currency, "Withdrawal from wallet"⟩ := by
          simp [signedAmount]
          ring
        have hres := wf_update_one s w hmem h (w.balance - amt)
          ⟨w.id, .withdraw, amt, w.currency, "Withdrawal from wallet"⟩ rfl hsum
          (sub_nonneg.mpr (not_lt.mp hlt))
        simpa [validateSufficientFund, hlt] using hres

/-- buyForex preserves well-formedness for positive amounts, non-negative
rates and distinct base and target currencies. -/
theorem wf_buyForex (s : WalletStore) (uid : Nat) (bc tc : String) (amt : Rat)
    (rate : Option Rat) (ok : Bool) (h : WellFormed s) (hamt : 0 < amt)
    (hbc : bc ≠ tc) (hr : ∀ r, rate = some r → 0 ≤ r) :
    WellFormed (buyForex s uid bc tc amt rate ok).2 := by
  unfold buyForex findBaseWalletOrFail getOrCreateTargetWalletInTxn
  cases hB : findWalletByCurrency s bc with
  | none => simpa using h
  | some wB =>
    obtain ⟨hBmem, hBcur⟩ := find_currency_props hB
    by_cases hlt : wB.balance < amt
    · simpa [validateSufficientFund, hlt] using h
    · cases rate with
      | none => simpa [validateSufficientFund, hlt] using h
      | some r =>
        have hr0 : 0 ≤ r := hr r rfl
        cases ok with
        | false => simpa [validateSufficientFund, hlt] using h
        | true =>
          cases hT : findWalletByCurrency s tc with
          | some wT =>
            obtain ⟨hTmem, hTcur⟩ := find_currency_props hT
            have hneid : wB.id ≠ wT.id := by
              intro he
              exact hbc (by rw [← hBcur, id_unique h.1 hBmem hTmem he, hTcur])
            have hres := wf_update_two s wB wT hBmem hTmem hneid h
              (wB.balance - amt) (wT.balance + amt * r)
              ⟨wB.id, .debit, amt, wB.currency, "Debit for forex purchase"⟩
              ⟨wT.id, .credit, amt * r, wT.currency, "Credit for forex purchase"⟩
              rfl rfl (by simp [signedAmount, sub_eq_add_neg])
              (by simp [signedAmount])
              (sub_nonneg.mpr (not_lt.mp hlt))
              (add_nonneg (h.2.2.2 wT hTmem).2 (mul_nonneg hamt.le hr0))
            simpa [validateSufficientFund, hlt] using hres
          | none =>
            have h1 := wf_insert_fresh s uid tc h
            have hBmem1 : wB ∈ s.wallets ++ [Wallet.mk s.nextWalletId uid tc 0] :=
              List.mem_append_left _ hBmem
            have hNmem1 : Wallet.mk s.nextWalletId uid tc 0 ∈
                s.wallets ++ [Wallet.mk s.nextWalletId uid tc 0] :=
              List.mem_append_right _ (List.mem_singleton_self _)
            have hneid : wB.id ≠ s.nextWalletId := Nat.ne_of_lt (h.2.1 wB hBmem)
            have hres := wf_update_two
              (WalletStore.mk (s.wallets ++ [Wallet.mk s.nextWalletId uid tc 0])
                s.walletTxns (s.nextWalletId + 1))
              wB (Wallet.mk s.nextWalletId uid tc 0) hBmem1 hNmem1 hneid h1
              (wB.balance - amt) (0 + amt * r)
              ⟨wB.id, .debit, amt, wB.currency, "Debit for forex purchase"⟩
              ⟨s.nextWalletId, .credit, amt * r, tc, "Credit for forex purchase"⟩
              rfl rfl (by simp [signedAmount, sub_eq_add_neg])
              (by simp [signedAmount])
              (sub_nonneg.mpr (not_lt.mp hlt))
              (by simpa using mul_nonneg hamt.le hr0)
            simpa [validateSufficientFund, hlt] using hres

/-- Every wallet operation within its input contract preserves
well-formedness. -/
theorem wf_applyOp (s : WalletStore) (op : WalletOp) (h : WellFormed s)
    (hv : validOp op) : WellFormed (applyOp s op) := by
  cases op with
  | createW uid c => exact wf_createWallet s uid c h
  | getBalance uid c => exact wf_getWalletBalance s uid c h
  | fund wid uid amt ok => exact wf_fundWallet s wid uid amt ok h hv
  | withdraw wid uid amt ok => exact wf_withdrawWallet s wid uid amt ok h
  | buy uid bc tc amt rate ok =>
    exact wf_buyForex s uid bc tc amt rate ok h hv.1 hv.2.1 hv.2.2

/-- The empty store is well formed. -/
theorem wf_emptyStore : WellFormed emptyStore := by
  refine ⟨?_, ?_, ?_, ?_⟩ <;> simp [emptyStore]

/-- Well-formedness is invariant along reachability. -/
theorem wf_reachable {s0 s : WalletStore} (h : ReachableFrom s0 s)
    (h0 : WellFormed s0) : WellFormed s := by
  induction h with
  | refl => exact h0
  | step op hre hv ih => exact wf_applyOp _ op ih hv

/-- Amended C4: in every store reachable from the empty store by fund,
withdraw, forex-transfer (and lazy wallet-creation) operations within the
input contract — positive amounts, non-negative rates, distinct base and
target currency per transfer — every wallet balance equals the signed sum
of its WalletTransaction rows and is never negative. -/
theorem c4_balance_equals_ledger_sum (s : WalletStore)
    (h : ReachableFrom emptyStore s) :
    ∀ w ∈ s.wallets, w.balance = txnSum s.walletTxns w.id ∧ 0 ≤ w.balance :=
  (wf_reachable h wf_emptyStore).2.2.2

/-- Witness for c4_balance_equals_ledger_sum: create a USD wallet, fund
100, buy 50 USD of EUR at rate 2; the USD wallet ends at 50, matching its
ledger. -/
theorem c4_balance_equals_ledger_sum_witness :
    (Wallet.mk 0 1 "USD" 50).balance =
      txnSum (applyOp (applyOp (applyOp emptyStore (.createW 1 "USD"))
        (.fund 0 1 100 true)) (.buy 1 "USD" "EUR" 50 (some 2) true)).walletTxns
        (Wallet.mk 0 1 "USD" 50).id ∧
    (0 : Rat) ≤ (Wallet.mk 0 1 "USD" 50).balance := by
  have hreach : ReachableFrom emptyStore
      (applyOp (applyOp (applyOp emptyStore (.createW 1 "USD"))
        (.fund 0 1 100 true)) (.buy 1 "USD" "EUR" 50 (some 2) true)) :=
    .step (.buy 1 "USD" "EUR" 50 (some 2) true)
      (.step (.fund 0 1 100 true)
        (.step (.createW 1 "USD") .refl trivial)
        (by norm_num [validOp]))
      (by
        refine ⟨by norm_num, by decide, fun r hr => ?_⟩
        injection hr with hh
        rw [← hh]
        norm_num)
  refine c4_balance_equals_ledger_sum _ hreach _ ?_
  simp [applyOp, createWallet, fundWallet, handleWalletTransaction,
    findWalletByIdUser, findWalletByUserCurrency, buyForex,
    findBaseWalletOrFail, findWalletByCurrency, validateSufficientFund,
    getOrCreateTargetWalletInTxn, setWalletBalance, emptyStore]
  norm_num

end Finance
